import Mathlib

/-!
Verification of `print_sys_info.py` against its specification.

The program is a system-information printer.  Its pure core is the byte
formatter `format_bytes`; the rest of the program queries platform APIs
(socket, statvfs, GetDiskFreeSpaceExW, platform/sys/time fields) and renders
the results.  We embed the program shallowly:

* numbers flow through `format_bytes` as Python numbers; all divisions the
  program performs are by 1024, which is exact scaling by a power of two, so
  we model the values as rationals;
* Python's `f"{x:.2f}"` formatting is modelled by `formatTwoDec`, which
  rounds the value to hundredths with round-half-to-even (the rounding used
  when Python renders a float with two decimal places) and prints it;
* every platform API the program calls is a field of an explicit environment
  record `Env`; a call that can raise is an `Except` value, and the `try`
  blocks of the source become `match` on that `Except`;
* `functools.lru_cache(maxsize=1)` on the network query becomes an explicit
  single-slot cache threaded as state;
* `main`'s writes to the console become a list of `OutSection` values, with
  rich markup tags such as `[red]...[/red]` kept literally inside the
  strings; panel titles and box styling are elided, the textual content and
  the order of the sections are retained.
-/

namespace PrintSysInfo

attribute [local semireducible] Rat.mul Rat.inv Rat.add Rat.sub

/-- Characters of the decimal representation of a natural number, accumulated
most-significant first.  The first argument is fuel; `n + 1` units of fuel
always suffice for the number `n`. -/
def natReprGo : Nat → Nat → List Char → List Char
  | 0, _, acc => acc
  | fuel + 1, n, acc =>
    if n = 0 then acc else natReprGo fuel (n / 10) (Nat.digitChar (n % 10) :: acc)

/-- Decimal representation of a natural number. -/
def natRepr (n : Nat) : String :=
  if n = 0 then "0" else String.mk (natReprGo (n + 1) n [])

/-- Two-digit, zero-padded decimal representation, used for the fractional
part of a two-decimal rendering. -/
def pad2 (n : Nat) : String :=
  if n < 10 then "0" ++ natRepr n else natRepr n

/-- Absolute value on the rationals, written out so that it evaluates by
kernel reduction. -/
def rabs (q : ℚ) : ℚ := if q < 0 then -q else q

/-- Floor of a rational as an integer.  The integer division `/` on `ℤ` is
Euclidean division, which agrees with floor division for the positive
denominator `q.den`. -/
def qfloor (q : ℚ) : ℤ := q.num / (q.den : ℤ)

/-- Nearest integer to a rational, ties going to the even integer: the
rounding Python applies to the hundredths digit when formatting with
`:.2f`. -/
def roundHalfEven (q : ℚ) : ℤ :=
  let f := qfloor q
  let r := q - (f : ℚ)
  if r < 1 / 2 then f
  else if 1 / 2 < r then f + 1
  else if f % 2 = 0 then f else f + 1

/-- Model of Python's `f"{q:.2f}"`: round `q` to hundredths (half to even)
and print with exactly two digits after the decimal point, with a leading
minus sign for negative values. -/
def formatTwoDec (q : ℚ) : String :=
  let m := (roundHalfEven (rabs q * 100)).toNat
  (if q < 0 then "-" else "") ++ natRepr (m / 100) ++ "." ++ pad2 (m % 100)

/-- Loop body of `format_bytes`: the source iterates over the unit list
`['B', 'KB', 'MB', 'GB', 'TB']`, returning `f"{bytes_value:.2f} {unit}"` as
soon as `bytes_value < 1024`, otherwise dividing by 1024; when the list is
exhausted it returns `f"{bytes_value:.2f} PB"`. -/
def format_bytes_go : List String → ℚ → String
  | [], bytes_value => formatTwoDec bytes_value ++ " " ++ "PB"
  | unit :: rest, bytes_value =>
    if bytes_value < 1024 then formatTwoDec bytes_value ++ " " ++ unit
    else format_bytes_go rest (bytes_value / 1024)

/-- Embedding of `format_bytes` (print_sys_info.py, lines 22-28): convert a
byte count to a human readable string. -/
def format_bytes (bytes_value : ℚ) : String :=
  format_bytes_go ["B", "KB", "MB", "GB", "TB"] bytes_value

/-- Error raised by the socket calls; the source catches `socket.error`. -/
inductive SockErr where
  | fail (code : Nat)
deriving DecidableEq

/-- Errors the POSIX branch catches: `(FileNotFoundError, OSError)`. -/
inductive StatErr where
  | fileNotFound
  | osError
deriving DecidableEq

/-- Errors the Windows branch catches: `(AttributeError, OSError)`. -/
inductive WinErr where
  | attributeError
  | osError
deriving DecidableEq

/-- Value of `os.name`: `"posix"`, `"nt"`, or anything else. -/
inductive OSName where
  | posix
  | nt
  | other
deriving DecidableEq

/-- Result of `os.statvfs(".")`: the fields the source reads. -/
structure StatvfsResult where
  f_frsize : Nat
  f_blocks : Nat
  f_bavail : Nat
  f_flag : Nat
deriving DecidableEq

/-- Out-parameters filled by `GetDiskFreeSpaceExW`: free bytes available to
the caller, total bytes, and total free bytes. -/
structure DiskSpace where
  freeBytes : Nat
  totalBytes : Nat
  totalFreeBytes : Nat
deriving DecidableEq

/-- Ambient host state: every platform API the program reads, as one record.
Calls that the source wraps in `try` are `Except` values. -/
structure Env where
  os : OSName
  cwd : String
  statvfs : String → Except StatErr StatvfsResult
  getDiskFreeSpaceExW : String → Except WinErr DiskSpace
  gethostname : Except SockErr String
  gethostbyname : String → Except SockErr String
  getfqdn : Except SockErr String
  system : String
  release : String
  version : String
  platformStr : String
  architecture : String
  machine : String
  processor : String
  win32_edition : String
  python_version : String
  python_compiler : String
  python_implementation : String
  executable : String
  api_version : Nat
  asctime_gmtime : String
  asctime_localtime : String
  tzname : String

/-- Record returned by `get_network_info`: each field a resolved string or
`None` (modelled as `none`). -/
structure NetworkInfo where
  hostname : Option String
  ip_address : Option String
  fqdn : Option String
deriving DecidableEq

/-- Record returned by `get_filesystem_info`; the dict carries a `'type'`
key only on the POSIX branch, modelled with `Option`. -/
structure FilesystemInfo where
  total : String
  available : String
  used : String
  type : Option Nat
deriving DecidableEq

/-- Sequence of socket calls inside the `try` of `get_network_info`
(print_sys_info.py, lines 33-36): `gethostname`, then `gethostbyname` on its
result, then `getfqdn`; the first raised `socket.error` aborts the block. -/
def resolveAll (env : Env) : Except SockErr (String × String × String) :=
  match env.gethostname with
  | .error e => .error e
  | .ok hostname =>
    match env.gethostbyname hostname with
    | .error e => .error e
    | .ok ip_address =>
      match env.getfqdn with
      | .error e => .error e
      | .ok fqdn => .ok (hostname, ip_address, fqdn)

/-- Embedding of `get_network_info` (print_sys_info.py, lines 30-47) minus
the `lru_cache` decorator, which is modelled separately by
`cachedNetworkCall`: on success the fqdn is kept only when it differs from
the hostname; on `socket.error` all three fields are `None`. -/
def get_network_info (env : Env) : NetworkInfo :=
  match resolveAll env with
  | .ok (hostname, ip_address, fqdn) =>
    { hostname := some hostname
      ip_address := some ip_address
      fqdn := if fqdn = hostname then none else some fqdn }
  | .error _ =>
    { hostname := none, ip_address := none, fqdn := none }

/-- Model of `functools.lru_cache(maxsize=1)` on a zero-argument function:
a single-slot cache threaded as state.  A call with a filled slot returns
the slot unchanged; a call with an empty slot runs the query and fills the
slot with its result. -/
def cachedNetworkCall (env : Env) : Option NetworkInfo → NetworkInfo × Option NetworkInfo
  | some cached => (cached, some cached)
  | none => (get_network_info env, some (get_network_info env))

/-- Embedding of `get_filesystem_info` (print_sys_info.py, lines 49-83):
on POSIX, derive totals from `statvfs` block statistics; on Windows, call
`GetDiskFreeSpaceExW` on the current working directory; any caught error,
or an unrecognised `os.name`, yields `None`. -/
def get_filesystem_info (env : Env) : Option FilesystemInfo :=
  match env.os with
  | .posix =>
    match env.statvfs "." with
    | .ok statvfs =>
      let total : ℤ := (statvfs.f_frsize : ℤ) * statvfs.f_blocks
      let available : ℤ := (statvfs.f_frsize : ℤ) * statvfs.f_bavail
      let used : ℤ := total - available
      some { total := format_bytes (total : ℚ)
             available := format_bytes (available : ℚ)
             used := format_bytes (used : ℚ)
             type := some statvfs.f_flag }
    | .error _ => none
  | .nt =>
    match env.getDiskFreeSpaceExW env.cwd with
    | .ok d =>
      some { total := format_bytes (d.totalBytes : ℚ)
             available := format_bytes (d.freeBytes : ℚ)
             used := format_bytes (((d.totalBytes : ℤ) - (d.freeBytes : ℤ) : ℤ) : ℚ)
             type := none }
    | .error _ => none
  | .other => none

/-- One section of the console output of `main`.  Panel titles and box
styling are elided; the textual content is kept, with rich markup tags
(color directives) left literally in the strings. -/
inductive OutSection where
  | banner (text : String)
  | osTree (lines : List String)
  | pythonTable (rows : List (String × String))
  | networkPanel (lines : List String)
  | fsTable (rows : List (String × String))
  | fsFailure (msg : String)
  | timePanel (lines : List String)
deriving DecidableEq

/-- Model of the Python expression `value or '[red]Could not be
determined[/red]'` applied to an optional field: `None` and the empty
string are both falsy, so either produces the marker. -/
def displayOpt : Option String → String
  | some s => if s = "" then "[red]Could not be determined[/red]" else s
  | none => "[red]Could not be determined[/red]"

/-- Lines of the network panel (print_sys_info.py, lines 123-129). -/
def networkLines (n : NetworkInfo) : List String :=
  ["[cyan]Hostname:[/cyan] " ++ displayOpt n.hostname,
   "[cyan]IP Address:[/cyan] " ++ displayOpt n.ip_address,
   "[cyan]FQDN:[/cyan] " ++ displayOpt n.fqdn]

/-- Lines of the operating-system tree (print_sys_info.py, lines 91-100);
the Windows-edition line is added only when `os.name == "nt"`. -/
def osTreeLines (env : Env) : List String :=
  ["Name: " ++ env.system,
   "Release: " ++ env.release,
   "Version: " ++ env.version,
   "Platform: " ++ env.platformStr,
   "Architecture: " ++ env.architecture,
   "Machine: " ++ env.machine,
   "Processor: " ++ env.processor]
  ++ (if env.os = .nt then ["Windows Edition: " ++ env.win32_edition] else [])

/-- Rows of the Python-environment table (print_sys_info.py, lines
108-117). -/
def pythonRows (env : Env) : List (String × String) :=
  [("Version", env.python_version),
   ("Compiler", env.python_compiler),
   ("Implementation", env.python_implementation),
   ("Executable", env.executable),
   ("API Version", natRepr env.api_version)]

/-- Rows of the filesystem table (print_sys_info.py, lines 139-143); the
type row appears only when the record has a `'type'` key. -/
def fsRows (fs : FilesystemInfo) : List (String × String) :=
  [("Total Size", fs.total),
   ("Available Space", fs.available),
   ("Used Space", fs.used)]
  ++ (match fs.type with
      | some t => [("Filesystem Type", natRepr t)]
      | none => [])

/-- Filesystem section of the output (print_sys_info.py, lines 133-147):
a table when the query returned data, otherwise exactly the red failure
message. -/
def fsSection : Option FilesystemInfo → OutSection
  | some fs => .fsTable (fsRows fs)
  | none => .fsFailure "[red]Could not get filesystem information[/red]"

/-- Lines of the time panel (print_sys_info.py, lines 150-156). -/
def timeLines (env : Env) : List String :=
  ["[cyan]Current Time (UTC):[/cyan] " ++ env.asctime_gmtime,
   "[cyan]Current Time (Local):[/cyan] " ++ env.asctime_localtime,
   "[cyan]Current Timezone:[/cyan] " ++ env.tzname]

/-- Embedding of `main` (print_sys_info.py, lines 85-157): the list of
sections written to the console, in the order the source prints them. -/
def main (env : Env) : List OutSection :=
  [.banner "System Information",
   .osTree (osTreeLines env),
   .pythonTable (pythonRows env),
   .networkPanel (networkLines (get_network_info env)),
   fsSection (get_filesystem_info env),
   .timePanel (timeLines env)]

/-- Coarse shape of a section, identifying its place in the fixed layout;
the filesystem table and the filesystem failure message fill the same slot. -/
def sectionKind : OutSection → Nat
  | .banner _ => 0
  | .osTree _ => 1
  | .pythonTable _ => 2
  | .networkPanel _ => 3
  | .fsTable _ => 4
  | .fsFailure _ => 4
  | .timePanel _ => 5

/-- Statvfs data of a sample POSIX host, used to exercise the theorems on a
concrete input. -/
def demoStatvfs : StatvfsResult :=
  { f_frsize := 4096, f_blocks := 1000000, f_bavail := 250000, f_flag := 4096 }

/-- Disk-space data of a sample Windows host. -/
def demoDisk : DiskSpace :=
  { freeBytes := 250000000, totalBytes := 1000000000, totalFreeBytes := 260000000 }

/-- Sample POSIX host on which every query succeeds. -/
def baseEnv : Env where
  os := .posix
  cwd := "/home/user"
  statvfs := fun _ => .ok demoStatvfs
  getDiskFreeSpaceExW := fun _ => .ok demoDisk
  gethostname := .ok "myhost"
  gethostbyname := fun _ => .ok "192.168.1.10"
  getfqdn := .ok "myhost.example.com"
  system := "Linux"
  release := "6.1.0"
  version := "#1 SMP"
  platformStr := "Linux-6.1.0-x86_64"
  architecture := "(64bit, ELF)"
  machine := "x86_64"
  processor := "x86_64"
  win32_edition := ""
  python_version := "3.13.0"
  python_compiler := "GCC 13.2.0"
  python_implementation := "CPython"
  executable := "/usr/bin/python3"
  api_version := 1013
  asctime_gmtime := "Sun Oct 12 00:00:00 2025"
  asctime_localtime := "Sun Oct 12 08:00:00 2025"
  tzname := "(UTC, UTC)"

/-- Sample host whose name service is down: `gethostname` raises. -/
def netFailEnv : Env := { baseEnv with gethostname := .error (.fail 1) }

/-- Sample host where `getfqdn` resolves to the bare hostname. -/
def fqdnEqEnv : Env := { baseEnv with getfqdn := .ok "myhost" }

/-- Sample Windows host on which the disk-space query succeeds. -/
def ntEnv : Env := { baseEnv with os := .nt }

/-- Auxiliary induction over the unit list of `format_bytes`: the result is
always a two-decimal rendering of some nonnegative scaled value followed by
a unit, and the scaled value is below 1024 whenever the unit comes from the
list rather than being the terminal `"PB"`. -/
theorem format_bytes_go_units (units : List String) :
    ∀ q : ℚ, 0 ≤ q →
      ∃ v u, format_bytes_go units q = formatTwoDec v ++ " " ++ u ∧ 0 ≤ v ∧
        ((u ∈ units ∧ v < 1024) ∨ u = "PB") := by
  induction units with
  | nil =>
    intro q hq
    exact ⟨q, "PB", rfl, hq, Or.inr rfl⟩
  | cons unit rest ih =>
    intro q hq
    by_cases h : q < 1024
    · refine ⟨q, unit, ?_, hq, Or.inl ⟨List.mem_cons_self unit rest, h⟩⟩
      simp [format_bytes_go, h]
    · obtain ⟨v, u, heq, hv, hcase⟩ := ih (q / 1024) (div_nonneg hq (by norm_num))
      refine ⟨v, u, ?_, hv, ?_⟩
      · simp [format_bytes_go, h, heq]
      · rcases hcase with ⟨hm, hlt⟩ | hpb
        · exact Or.inl ⟨List.mem_cons_of_mem unit hm, hlt⟩
        · exact Or.inr hpb

/-- Claim C1, counterexample: at the input 1048575 the code returns
`"1024.00 KB"`.  The scaled value 1048575/1024 is below 1024, so the KB
branch is taken, but the two-decimal rendering rounds it up to `1024.00`:
the printed numeric part equals the rendering of 1024, which is not
strictly below 1024, and the unit is KB, not PB. -/
theorem format_bytes_prints_1024_below_petabyte :
    format_bytes 1048575 = "1024.00 KB" ∧
    format_bytes 1048575 = formatTwoDec 1024 ++ " " ++ "KB" ∧
    ¬ ((1024 : ℚ) < 1024) := by
  exact ⟨by decide, by decide, by norm_num⟩

/-- Claim C1 (amended): for every nonnegative byte count the result is the
two-decimal rendering of a nonnegative scaled value followed by one of the
units B, KB, MB, GB, TB, PB, and the scaled value is strictly below 1024
before rounding unless the unit is PB; after rounding, the printed numeric
part can reach exactly 1024.00 for a non-PB unit. -/
theorem format_bytes_unit_suffix_and_scaled_bound (b : ℚ) (hb : 0 ≤ b) :
    ∃ v u, u ∈ ["B", "KB", "MB", "GB", "TB", "PB"] ∧
      format_bytes b = formatTwoDec v ++ " " ++ u ∧ 0 ≤ v ∧ (u ≠ "PB" → v < 1024) := by
  obtain ⟨v, u, heq, hv, hcase⟩ := format_bytes_go_units ["B", "KB", "MB", "GB", "TB"] b hb
  refine ⟨v, u, ?_, heq, hv, ?_⟩
  · rcases hcase with ⟨hm, _⟩ | hpb
    · simp only [List.mem_cons, List.not_mem_nil, or_false] at hm ⊢
      tauto
    · simp [hpb]
  · intro hne
    rcases hcase with ⟨_, hlt⟩ | hpb
    · exact hlt
    · exact absurd hpb hne

/-- Claim C1 witness: the amended statement at the concrete input 1536. -/
theorem format_bytes_unit_suffix_and_scaled_bound_witness :
    ∃ v u, u ∈ ["B", "KB", "MB", "GB", "TB", "PB"] ∧
      format_bytes 1536 = formatTwoDec v ++ " " ++ u ∧ 0 ≤ v ∧ (u ≠ "PB" → v < 1024) :=
  format_bytes_unit_suffix_and_scaled_bound 1536 (by decide)

/-- Claim C2: the six fixed-point equations of `format_bytes`, including the
boundary behaviour that values at and above 1024^5 stay in PB because there
is no EB unit. -/
theorem format_bytes_fixed_points :
    format_bytes 0 = "0.00 B" ∧
    format_bytes 1024 = "1.00 KB" ∧
    format_bytes 1536 = "1.50 KB" ∧
    format_bytes (1024 ^ 4) = "1.00 TB" ∧
    format_bytes (1024 ^ 5) = "1.00 PB" ∧
    format_bytes (1024 ^ 6) = "1024.00 PB" := by
  exact ⟨by decide, by decide, by decide, by decide, by decide, by decide⟩

/-- Claim C3: whenever the chain of socket calls fails with a socket error,
`get_network_info` returns the record with all three fields `None`; being a
total function into `NetworkInfo`, it propagates no error to the caller and
never returns a partially populated record on failure. -/
theorem network_failure_all_fields_unavailable (env : Env) (e : SockErr)
    (h : resolveAll env = .error e) :
    get_network_info env = { hostname := none, ip_address := none, fqdn := none } := by
  simp [get_network_info, h]

/-- Claim C3 witness: a concrete host whose `gethostname` raises. -/
theorem network_failure_all_fields_unavailable_witness :
    get_network_info netFailEnv = { hostname := none, ip_address := none, fqdn := none } :=
  network_failure_all_fields_unavailable netFailEnv (.fail 1) rfl

/-- Claim C4: with the single-slot cache of `lru_cache(maxsize=1)` threaded
as state, the second call returns exactly the first call's result (even if
the ambient host state changed in between, the cached record is returned),
and the first call computes `get_network_info` once. -/
theorem network_info_memoized (env1 env2 : Env) :
    (cachedNetworkCall env2 (cachedNetworkCall env1 none).2).1 =
      (cachedNetworkCall env1 none).1 ∧
    (cachedNetworkCall env1 none).1 = get_network_info env1 :=
  ⟨rfl, rfl⟩

/-- Claim C5: on a POSIX host with a successful `statvfs` of the current
directory, the returned record holds total = f_frsize * f_blocks,
available = f_frsize * f_bavail, used = total - available (all rendered by
`format_bytes`), and the type field is the raw `f_flag` integer. -/
theorem posix_filesystem_success_formula (env : Env) (s : StatvfsResult)
    (hos : env.os = .posix) (hst : env.statvfs "." = .ok s) :
    get_filesystem_info env = some
      { total := format_bytes (((s.f_frsize : ℤ) * s.f_blocks : ℤ) : ℚ)
        available := format_bytes (((s.f_frsize : ℤ) * s.f_bavail : ℤ) : ℚ)
        used := format_bytes
          (((s.f_frsize : ℤ) * s.f_blocks - (s.f_frsize : ℤ) * s.f_bavail : ℤ) : ℚ)
        type := some s.f_flag } := by
  simp [get_filesystem_info, hos, hst]

/-- Claim C5 witness: the POSIX formula at the sample host. -/
theorem posix_filesystem_success_formula_witness :
    get_filesystem_info baseEnv = some
      { total := format_bytes (((demoStatvfs.f_frsize : ℤ) * demoStatvfs.f_blocks : ℤ) : ℚ)
        available := format_bytes
          (((demoStatvfs.f_frsize : ℤ) * demoStatvfs.f_bavail : ℤ) : ℚ)
        used := format_bytes
          (((demoStatvfs.f_frsize : ℤ) * demoStatvfs.f_blocks -
            (demoStatvfs.f_frsize : ℤ) * demoStatvfs.f_bavail : ℤ) : ℚ)
        type := some demoStatvfs.f_flag } :=
  posix_filesystem_success_formula baseEnv demoStatvfs rfl rfl

/-- Claim C6: every failure of the filesystem query — a raised error on the
POSIX branch, a raised error on the Windows branch, or an `os.name` that is
neither — yields `none` (the function is total, so no exception reaches the
caller), and the renderer turns `none` into exactly the red failure message
rather than a table. -/
theorem filesystem_failure_yields_none_and_message (env : Env)
    (e1 : StatErr) (e2 : WinErr) :
    get_filesystem_info { env with os := .posix, statvfs := fun _ => .error e1 } = none ∧
    get_filesystem_info
      { env with os := .nt, getDiskFreeSpaceExW := fun _ => .error e2 } = none ∧
    get_filesystem_info { env with os := .other } = none ∧
    fsSection none = .fsFailure "[red]Could not get filesystem information[/red]" :=
  ⟨rfl, rfl, rfl, rfl⟩

/-- Claim C7: on a Windows host where `GetDiskFreeSpaceExW`, called on the
current working directory, succeeds, the record renders total and free byte
counts, used = total - free, and carries no filesystem-type field. -/
theorem windows_filesystem_success_formula (env : Env) (d : DiskSpace)
    (hos : env.os = .nt) (hd : env.getDiskFreeSpaceExW env.cwd = .ok d) :
    get_filesystem_info env = some
      { total := format_bytes (d.totalBytes : ℚ)
        available := format_bytes (d.freeBytes : ℚ)
        used := format_bytes (((d.totalBytes : ℤ) - (d.freeBytes : ℤ) : ℤ) : ℚ)
        type := none } := by
  simp [get_filesystem_info, hos, hd]

/-- Claim C7 witness: the Windows formula at the sample host. -/
theorem windows_filesystem_success_formula_witness :
    get_filesystem_info ntEnv = some
      { total := format_bytes (demoDisk.totalBytes : ℚ)
        available := format_bytes (demoDisk.freeBytes : ℚ)
        used := format_bytes (((demoDisk.totalBytes : ℤ) - (demoDisk.freeBytes : ℤ) : ℤ) : ℚ)
        type := none } :=
  windows_filesystem_success_formula ntEnv demoDisk rfl rfl

/-- Claim C8: on every host the renderer emits exactly six sections in the
fixed order banner, OS tree, runtime table, network panel, filesystem
section (table or failure message), time panel; the network panel always
has its three lines, and an unavailable field is rendered as the red
could-not-be-determined marker rather than omitted. -/
theorem main_renders_six_sections_in_order (env : Env) :
    (main env).map sectionKind = [0, 1, 2, 3, 4, 5] ∧
    (main env).get? 3 = some (.networkPanel (networkLines (get_network_info env))) ∧
    displayOpt none = "[red]Could not be determined[/red]" ∧
    ∀ n : NetworkInfo, (networkLines n).length = 3 := by
  refine ⟨?_, rfl, rfl, fun n => rfl⟩
  cases hfs : get_filesystem_info env with
  | none => simp [main, hfs, fsSection, sectionKind]
  | some fs => simp [main, hfs, fsSection, sectionKind]

/-- Claim C9: when all three socket calls succeed but the fqdn equals the
hostname, the returned record has `fqdn = None` while hostname and IP
address are populated. -/
theorem fqdn_matching_hostname_unavailable (env : Env) (hostname ip_address : String)
    (hh : env.gethostname = .ok hostname)
    (hip : env.gethostbyname hostname = .ok ip_address)
    (hf : env.getfqdn = .ok hostname) :
    get_network_info env =
      { hostname := some hostname, ip_address := some ip_address, fqdn := none } := by
  simp [get_network_info, resolveAll, hh, hip, hf]

/-- Claim C9 witness: a concrete host whose fqdn resolves to the bare
hostname. -/
theorem fqdn_matching_hostname_unavailable_witness :
    get_network_info fqdnEqEnv =
      { hostname := some "myhost", ip_address := some "192.168.1.10", fqdn := none } :=
  fqdn_matching_hostname_unavailable fqdnEqEnv "myhost" "192.168.1.10" rfl rfl rfl

/-- Claim C10: `format_bytes` is a total function on the rationals, and for
every input below 1024 — negative values included — it returns the
two-decimal rendering of the input suffixed with B, with no precondition
check. -/
theorem format_bytes_below_1024_returns_B (bytes_value : ℚ) (h : bytes_value < 1024) :
    format_bytes bytes_value = formatTwoDec bytes_value ++ " " ++ "B" := by
  simp [format_bytes, format_bytes_go, h]

/-- Claim C10 witness: the statement at the negative input -3. -/
theorem format_bytes_below_1024_returns_B_witness :
    format_bytes (-3) = formatTwoDec (-3) ++ " " ++ "B" :=
  format_bytes_below_1024_returns_B (-3) (by decide)

end PrintSysInfo
